import Mathlib

/-
Verification of the uRTCLib calendar/RTC driver (DS1307/DS3231/DS3232).

The definitions below are a shallow embedding of src/uRTCLib.cpp and
src/uRTCLib.h.  Machine integers are modelled as Nat with explicit
reductions modulo 2^8 / 2^16 / 2^32 at the points where the C code
stores into a fixed-width variable; in the library's operating range
the intermediate C expressions never overflow their types, so only
those storage points matter.
-/

namespace URTC

/-- Days of each month January .. November, as in the source table
`daysInMonth` (December omitted by the source). -/
def daysInMonth : List Nat := [31, 28, 31, 30, 31, 30, 31, 31, 30, 31, 30]

/-- Sum of the first `m - 1` entries of the table: the effect of the
`for (i = 1; i < m; ++i) days += daysInMonth[i-1];` loop in `date2days`. -/
def monthSum (m : Nat) : Nat := (daysInMonth.take (m - 1)).foldl Nat.add 0

/-- Embedding of `static uint16_t date2days(uint16_t y, uint8_t m, uint8_t d)`:
days since 2000-01-01, valid for 2001..2099.  The result is stored in a
`uint16_t`, hence the final reduction modulo 65536 (for `y ≤ 99` every
intermediate value is below 2^16, so per-operation wrap never occurs). -/
def date2days (y m d : Nat) : Nat :=
  let y := if 2000 ≤ y then y - 2000 else y
  let days := d + monthSum m
  let days := days + (if 2 < m ∧ y % 4 = 0 then 1 else 0)
  (days + 365 * y + (y + 3) / 4 - 1) % 65536

/-- Embedding of `static long time2long(uint16_t days, uint8_t h, uint8_t m, uint8_t s)`. -/
def time2long (days h m s : Nat) : Nat :=
  ((days * 24 + h) * 60 + m) * 60 + s

/-- Calendar value: the six stored fields of the C++ `DateTime` class
(`yOff`, `m`, `d`, `hh`, `mm`, `ss`, each a `uint8_t`). -/
structure DateTime where
  yOff : Nat
  m : Nat
  d : Nat
  hh : Nat
  mm : Nat
  ss : Nat
deriving DecidableEq

/-- Embedding of the field constructor
`DateTime::DateTime(uint16_t year, uint8_t month, ...)`: years ≥ 2000 are
reduced to an offset; every field is stored into a `uint8_t`. -/
def DateTime.fromFields (year month day hour minute sec : Nat) : DateTime :=
  ⟨(if 2000 ≤ year then year - 2000 else year) % 256, month % 256, day % 256,
   hour % 256, minute % 256, sec % 256⟩

/-- Embedding of `uint32_t DateTime::unixtime()`: seconds since 1970-01-01,
reduced modulo 2^32 at the `uint32_t` result. -/
def DateTime.unixtime (v : DateTime) : Nat :=
  (time2long (date2days v.yOff v.m v.d) v.hh v.mm v.ss + 946684800) % 4294967296

/-- Embedding of `uint8_t DateTime::dayOfTheWeek()`:
`(date2days(yOff, m, d) + 6) % 7`, 0 = Sunday. -/
def DateTime.dayOfTheWeek (v : DateTime) : Nat :=
  (date2days v.yOff v.m v.d + 6) % 7

/-- The year-scanning loop of `DateTime::DateTime(uint32_t t)`:
starting at `yOff = 0`, repeatedly subtract 365 (+1 for leap years
`yOff % 4 == 0`) until the residual day count fits in the current year.
The source loop terminates for every `uint16_t` day count within at most
180 iterations; `fuel` bounds the recursion and is never exhausted for
such inputs.  Returns (yOff, residual days, leap flag of that year). -/
def yearLoop : Nat → Nat → Nat → Nat × Nat × Bool
  | 0, days, y => (y, days, y % 4 == 0)
  | fuel + 1, days, y =>
      let leap : Bool := y % 4 == 0
      let len := 365 + (if leap then 1 else 0)
      if days < len then (y, days, leap)
      else yearLoop fuel (days - len) (y + 1)

/-- The month-scanning loop of `DateTime::DateTime(uint32_t t)`:
`for (m = 1; m < 12; ++m)` subtracts month lengths (February extended by
the leap flag) until the residual fits; the countdown argument is
`12 - m`, so the loop exits with `m = 12` when it runs out.
Returns (month, residual days). -/
def monthLoopAux (leap : Bool) : Nat → Nat → Nat → Nat × Nat
  | 0, days, m => (m, days)
  | k + 1, days, m =>
      let dpm := daysInMonth.getD (m - 1) 0 + (if leap && m == 2 then 1 else 0)
      if days < dpm then (m, days)
      else monthLoopAux leap k (days - dpm) (m + 1)

/-- The date part of the `DateTime(uint32_t)` constructor: expand a
day count since 2000-01-01 into (yOff, month, day). -/
def days2date (days : Nat) : Nat × Nat × Nat :=
  let yr := yearLoop 200 days 0
  let mr := monthLoopAux yr.2.2 11 yr.2.1 1
  (yr.1, mr.1, mr.2 + 1)

/-- Embedding of `DateTime::DateTime(uint32_t t)`: subtract the
1970→2000 offset (uint32 wraparound subtraction), divide out seconds,
minutes and hours, then expand the residual day count (stored in a
`uint16_t`) by the year and month loops.  Fields are stored as `uint8_t`. -/
def DateTime.fromUnix (t : Nat) : DateTime :=
  let t2 := (t + (4294967296 - 946684800)) % 4294967296
  let ss := t2 % 60
  let t3 := t2 / 60
  let mm := t3 % 60
  let t4 := t3 / 60
  let hh := t4 % 24
  let days := (t4 / 24) % 65536
  let ymd := days2date days
  ⟨ymd.1 % 256, ymd.2.1 % 256, (ymd.2.2) % 256, hh, mm, ss⟩

/-- Two-digit zero-padded decimal rendering: the effect of `%02d` in
`DateTime::timestamp` (values ≥ 100 cannot occur for the stored fields
passed with this format). -/
def pad2 (n : Nat) : String := if n < 10 then "0" ++ n.repr else n.repr

/-- Embedding of `String DateTime::timestamp(TIMESTAMP_FULL)`:
`sprintf("%d-%02d-%02dT%02d:%02d:%02d", 2000+yOff, m, d, hh, mm, ss)`. -/
def DateTime.timestampFull (v : DateTime) : String :=
  (2000 + v.yOff).repr ++ "-" ++ pad2 v.m ++ "-" ++ pad2 v.d ++ "T" ++
    pad2 v.hh ++ ":" ++ pad2 v.mm ++ ":" ++ pad2 v.ss

/-- Conversion of a `uint32_t` bit pattern to the `int32_t` value with the
same representation: how the `TimeSpan(int32_t)` constructor receives the
`uint32_t` difference in `DateTime::operator-(const DateTime&)`. -/
def toInt32 (n : Nat) : Int :=
  if n < 2147483648 then (n : Int) else (n : Int) - 4294967296

/-- Embedding of `DateTime DateTime::operator+(const TimeSpan&)`:
`DateTime(unixtime() + span.totalseconds())`, the `int32_t` span added to
the `uint32_t` unixtime modulo 2^32.  `s` is the span's total-seconds. -/
def DateTime.addSpan (v : DateTime) (s : Int) : DateTime :=
  DateTime.fromUnix ((((v.unixtime : Int) + s) % 4294967296).toNat)

/-- Embedding of `TimeSpan DateTime::operator-(const DateTime&)`:
`TimeSpan(unixtime() - right.unixtime())`, a `uint32_t` subtraction whose
bit pattern becomes the `int32_t` total-seconds of the span. -/
def DateTime.subDT (a b : DateTime) : Int :=
  toInt32 ((a.unixtime + (4294967296 - b.unixtime)) % 4294967296)

/-- Length of month `m` in year `2000 + y` under the library's calendar
model (leap years exactly those with `y % 4 = 0`; December, absent from
the source table, has 31 days).  Used only to state validity. -/
def monthLen (y m : Nat) : Nat :=
  if m = 12 then 31
  else daysInMonth.getD (m - 1) 0 + (if m = 2 ∧ y % 4 = 0 then 1 else 0)

/-- Validity of a calendar value in the range [2001-01-01, 2099-12-31]:
month 1-12, day valid for that month with leap years exactly those with
`yOff % 4 = 0`, hour 0-23, minute 0-59, second 0-59. -/
def ValidDT (v : DateTime) : Prop :=
  1 ≤ v.yOff ∧ v.yOff ≤ 99 ∧ 1 ≤ v.m ∧ v.m ≤ 12 ∧ 1 ≤ v.d ∧
    v.d ≤ monthLen v.yOff v.m ∧ v.hh ≤ 23 ∧ v.mm ≤ 59 ∧ v.ss ≤ 59

instance (v : DateTime) : Decidable (ValidDT v) := by
  unfold ValidDT; infer_instance

/-- Embedding of `static uint8_t bcd2bin(uint8_t val)`:
`val - 6 * (val >> 4)` in `uint8_t` arithmetic (for `val < 256` the
subtraction never goes below zero, since `6 * (val / 16) ≤ val`). -/
def bcd2bin (val : Nat) : Nat := (val + 256 - 6 * (val / 16) % 256) % 256

/-- Embedding of `static uint8_t bin2bcd(uint8_t val)`:
`val + 6 * (val / 10)` in `uint8_t` arithmetic. -/
def bin2bcd (val : Nat) : Nat := (val + 6 * (val / 10)) % 256

/-- Length of the year `2000 + y` as used by the year loop of the
`DateTime(uint32_t)` constructor: 365 plus one for `y % 4 == 0`. -/
def yLen (y : Nat) : Nat := 365 + (if y % 4 == 0 then 1 else 0)

/-- Length of month `m` as used by the month loop of the
`DateTime(uint32_t)` constructor (undefined table entry 0 for `m = 12`,
which the loop never reads). -/
def mLen (leap : Bool) (m : Nat) : Nat :=
  daysInMonth.getD (m - 1) 0 + (if leap && m == 2 then 1 else 0)

/-- Month length with December's implied 31 days made explicit; used to
state the remainder bound that holds on both sides of the round-trip. -/
def mLenD (leap : Bool) (m : Nat) : Nat := if m = 12 then 31 else mLen leap m

/-- Total length of the `k` consecutive years starting at year `2000 + y`. -/
def sumY : Nat → Nat → Nat
  | _, 0 => 0
  | y, k + 1 => yLen y + sumY (y + 1) k

/-- Total length of the `j` consecutive months starting at month `m`. -/
def sumM (leap : Bool) : Nat → Nat → Nat
  | _, 0 => 0
  | m, j + 1 => mLen leap m + sumM leap (m + 1) j

end URTC

namespace URTC

/- Register-protocol / device-session layer.  The I2C slave is modelled
as a register file `regs : Nat → Nat` (one byte per address) plus a
trace of the bus transactions the driver issues; the driver's in-memory
mirror fields correspond one-to-one to the private members of the C++
`uRTCLib` class. -/

/-- One bus transaction: a register write or a register read. -/
inductive BusOp where
  | wr (addr val : Nat)
  | rd (addr : Nat)
deriving DecidableEq

/-- Device-session state: the chip's register file, the log of bus
transactions, and the in-memory mirror (`_second` .. `_sqwg_mode`). -/
structure uRTCLib where
  regs : Nat → Nat
  trace : List BusOp
  rtc_second : Nat
  rtc_minute : Nat
  rtc_hour : Nat
  rtc_day : Nat
  rtc_month : Nat
  rtc_year : Nat
  rtc_dayOfWeek : Nat
  rtc_temp : Nat
  a1_mode : Nat
  a1_second : Nat
  a1_minute : Nat
  a1_hour : Nat
  a1_day_dow : Nat
  a2_mode : Nat
  a2_minute : Nat
  a2_hour : Nat
  a2_day_dow : Nat
  sqwg_mode : Nat

/-- Read one register over the bus (pointer write + 1-byte request). -/
def busReadReg (r : uRTCLib) (addr : Nat) : Nat × uRTCLib :=
  (r.regs addr, { r with trace := r.trace ++ [BusOp.rd addr] })

/-- Write one register over the bus; the device latches the low byte. -/
def busWriteReg (r : uRTCLib) (addr val : Nat) : uRTCLib :=
  { r with regs := fun a => if a = addr then val % 256 else r.regs a,
           trace := r.trace ++ [BusOp.wr addr (val % 256)] }

def URTCLIB_ALARM_TYPE_1_NONE : Nat := 0b00000000
def URTCLIB_ALARM_TYPE_1_FIXED_HMS : Nat := 0b00101000
def URTCLIB_ALARM_TYPE_2_NONE : Nat := 0b10000000
def URTCLIB_ALARM_TYPE_2_FIXED_HM : Nat := 0b10101000
def URTCLIB_ALARM_1 : Nat := URTCLIB_ALARM_TYPE_1_NONE
def URTCLIB_ALARM_2 : Nat := URTCLIB_ALARM_TYPE_2_NONE
def URTCLIB_SQWG_OFF_0 : Nat := 0b11111111
def URTCLIB_SQWG_OFF_1 : Nat := 0b11111110
def URTCLIB_SQWG_1H : Nat := 0b00000000
def URTCLIB_SQWG_1024H : Nat := 0b00001000
def URTCLIB_SQWG_4096H : Nat := 0b00010000
def URTCLIB_SQWG_8192H : Nat := 0b00011000
def URTCLIB_SQWG_32768H : Nat := 0b00000011

/-- Embedding of `DateTime uRTCLib::now()`: one 7-byte read from address
0, BCD-decoded (bit 7 of the seconds byte masked, the weekday byte read
and discarded), returned as a `DateTime`.  The mirror fields are not
touched by the source. -/
def uRTCLib.now (r : uRTCLib) : DateTime × uRTCLib :=
  let (b0, r0) := busReadReg r 0
  let (b1, r1) := busReadReg r0 1
  let (b2, r2) := busReadReg r1 2
  let (_b3, r3) := busReadReg r2 3
  let (b4, r4) := busReadReg r3 4
  let (b5, r5) := busReadReg r4 5
  let (b6, r6) := busReadReg r5 6
  let ss := bcd2bin (b0 &&& 0x7F)
  let mm := bcd2bin b1
  let hh := bcd2bin b2
  let d := bcd2bin b4
  let m := bcd2bin b5
  let y := bcd2bin b6 + 2000
  (DateTime.fromFields y m d hh mm ss, r6)

/-- Embedding of `uint8_t uRTCLib::second()`: returns the mirror field. -/
def uRTCLib.second (r : uRTCLib) : Nat := r.rtc_second

/-- Embedding of `uint8_t uRTCLib::minute()`. -/
def uRTCLib.minute (r : uRTCLib) : Nat := r.rtc_minute

/-- Embedding of `uint8_t uRTCLib::hour()`. -/
def uRTCLib.hour (r : uRTCLib) : Nat := r.rtc_hour

/-- Embedding of `uint8_t uRTCLib::day()`. -/
def uRTCLib.day (r : uRTCLib) : Nat := r.rtc_day

/-- Embedding of `uint8_t uRTCLib::month()`. -/
def uRTCLib.month (r : uRTCLib) : Nat := r.rtc_month

/-- Embedding of `uint8_t uRTCLib::year()`. -/
def uRTCLib.year (r : uRTCLib) : Nat := r.rtc_year

/-- Embedding of `bool uRTCLib::alarmSet(type, second, minute, hour, day_dow)`. -/
def uRTCLib.alarmSet (r : uRTCLib) (type sec minute hour day_dow : Nat) :
    Bool × uRTCLib :=
  if type = URTCLIB_ALARM_TYPE_1_NONE then
    let (status, r1) := busReadReg r 0x0E
    let status := status &&& 0b11111110
    let r2 := busWriteReg r1 0x0E status
    (true, { r2 with a1_mode := type })
  else if type = URTCLIB_ALARM_TYPE_2_NONE then
    let (status, r1) := busReadReg r 0x0E
    let status := status &&& 0b11111101
    let r2 := busWriteReg r1 0x0E status
    (true, { r2 with a2_mode := type })
  else if type &&& 0b10000000 = 0 then
    let r1 := busWriteReg r 0x07
      ((bin2bcd sec &&& 0b01111111) ||| ((type &&& 0b00000001) <<< 7))
    let r2 := busWriteReg r1 0x08
      ((bin2bcd minute &&& 0b01111111) ||| ((type &&& 0b00000010) <<< 6))
    let r3 := busWriteReg r2 0x09
      ((bin2bcd hour &&& 0b00111111) ||| ((type &&& 0b00000100) <<< 5))
    let r4 := busWriteReg r3 0x0A
      ((bin2bcd day_dow &&& 0b00111111) ||| ((type &&& 0b00001000) <<< 4) |||
        ((type &&& 0b00010000) <<< 2))
    let (status, r5) := busReadReg r4 0x0E
    let status := status ||| 0b00000101
    let r6 := busWriteReg r5 0x0E status
    (true, { r6 with a1_mode := type, a1_second := sec, a1_minute := minute,
                     a1_hour := hour, a1_day_dow := day_dow,
                     sqwg_mode := URTCLIB_SQWG_OFF_1 })
  else
    let r1 := busWriteReg r 0x0B
      ((bin2bcd minute &&& 0b01111111) ||| ((type &&& 0b00000010) <<< 6))
    let r2 := busWriteReg r1 0x0C
      ((bin2bcd hour &&& 0b00111111) ||| ((type &&& 0b00000100) <<< 5))
    let r3 := busWriteReg r2 0x0D
      ((bin2bcd day_dow &&& 0b00111111) ||| ((type &&& 0b00001000) <<< 4) |||
        ((type &&& 0b00010000) <<< 2))
    let (status, r4) := busReadReg r3 0x0E
    let status := status ||| 0b00000110
    let r5 := busWriteReg r4 0x0E status
    (true, { r5 with a2_mode := type, a2_minute := minute, a2_hour := hour,
                     a2_day_dow := day_dow, sqwg_mode := URTCLIB_SQWG_OFF_1 })

/-- Embedding of `bool uRTCLib::alarmDisable(uint8_t alarm)`.  Note that
the source computes a per-slot `mask` but then performs the
read-modify-write with the hard-coded alarm-1 mask `0b11111110` and
unconditionally clears the alarm-1 mirror, exactly as transcribed here. -/
def uRTCLib.alarmDisable (r : uRTCLib) (alarm : Nat) : Bool × uRTCLib :=
  let mask := if alarm = URTCLIB_ALARM_1 then 0b11111110
    else if alarm = URTCLIB_ALARM_2 then 0b11111101 else 0
  if mask ≠ 0 then
    let (status, r1) := busReadReg r 0x0E
    let status := status &&& 0b11111110
    let r2 := busWriteReg r1 0x0E status
    (true, { r2 with a1_mode := URTCLIB_ALARM_TYPE_1_NONE })
  else (false, r)

/-- Embedding of `uint8_t uRTCLib::alarmMode(uint8_t alarm)`. -/
def uRTCLib.alarmMode (r : uRTCLib) (alarm : Nat) : Nat :=
  if alarm = URTCLIB_ALARM_1 then r.a1_mode
  else if alarm = URTCLIB_ALARM_2 then r.a2_mode
  else 0b11111111

/-- Embedding of `bool uRTCLib::sqwgSetMode(uint8_t mode)`: a
mode-indexed AND/OR mask pair, applied by read-modify-write of the
control byte 0x0E when either mask is nonzero; the alarm mirrors are
reset only for the off modes. -/
def uRTCLib.sqwgSetMode (r : uRTCLib) (mode : Nat) : Bool × uRTCLib :=
  let processAnd := if mode = URTCLIB_SQWG_OFF_1 then 0b11111111
    else if mode = URTCLIB_SQWG_1H then 0b11100011
    else if mode = URTCLIB_SQWG_1024H then 0b11101011
    else if mode = URTCLIB_SQWG_4096H then 0b11110011
    else if mode = URTCLIB_SQWG_8192H then 0b11111011
    else 0b00000000
  let processOr := if mode = URTCLIB_SQWG_OFF_1 then 0b00000100
    else if mode = URTCLIB_SQWG_1H then 0b00000000
    else if mode = URTCLIB_SQWG_1024H then 0b00001000
    else if mode = URTCLIB_SQWG_4096H then 0b00010000
    else if mode = URTCLIB_SQWG_8192H then 0b00011000
    else 0b00000000
  if processAnd ≠ 0 ∨ processOr ≠ 0 then
    let (status, r1) := busReadReg r 0x0E
    let status := (status &&& processAnd) ||| processOr
    let r2 := busWriteReg r1 0x0E status
    let r3 := { r2 with sqwg_mode := mode }
    let r4 := if mode = URTCLIB_SQWG_OFF_1 ∨ mode = URTCLIB_SQWG_OFF_0 then
        { r3 with a1_mode := URTCLIB_ALARM_TYPE_1_NONE,
                  a2_mode := URTCLIB_ALARM_TYPE_2_NONE }
      else r3
    (true, r4)
  else (false, r)

/-- Embedding of `byte uRTCLib::ramRead(uint8_t address)`: the source
fixes `offset = 0xff` and guards the bus access by `offset != 0xff`,
so the read branch is dead code. -/
def uRTCLib.ramRead (r : uRTCLib) (address : Nat) : Nat × uRTCLib :=
  let offset := 0xff
  if offset ≠ 0xff then busReadReg r ((address + offset) % 256)
  else (0xff, r)

/-- Embedding of `bool uRTCLib::ramWrite(uint8_t address, byte data)`:
same dead `offset != 0xff` guard as `ramRead`. -/
def uRTCLib.ramWrite (r : uRTCLib) (address data : Nat) : Bool × uRTCLib :=
  let offset := 0xff
  if offset ≠ 0xff then (true, busWriteReg r ((address + offset) % 256) data)
  else (false, r)

/-- Device session in its power-on state (the C++ member initializers),
attached to a register file. -/
def mkRTC (regs0 : Nat → Nat) : uRTCLib :=
  { regs := regs0, trace := [],
    rtc_second := 0, rtc_minute := 0, rtc_hour := 0, rtc_day := 0,
    rtc_month := 0, rtc_year := 0, rtc_dayOfWeek := 0, rtc_temp := 9999,
    a1_mode := URTCLIB_ALARM_TYPE_1_NONE, a1_second := 0, a1_minute := 0,
    a1_hour := 0, a1_day_dow := 0,
    a2_mode := URTCLIB_ALARM_TYPE_2_NONE, a2_minute := 0, a2_hour := 0,
    a2_day_dow := 0,
    sqwg_mode := URTCLIB_SQWG_OFF_1 }

/-- A device with all registers zero. -/
def rtcZero : uRTCLib := mkRTC (fun _ => 0)

/-- A device whose control byte 0x0E has INTCN, A2IE and A1IE set and
whose alarm mirrors are both armed; used to exhibit the `alarmDisable`
divergence. -/
def rtcC3 : uRTCLib :=
  { mkRTC (fun a => if a = 0x0E then 0b00000111 else 0) with
      a1_mode := URTCLIB_ALARM_TYPE_1_FIXED_HMS,
      a2_mode := URTCLIB_ALARM_TYPE_2_FIXED_HM }

/-- A device whose time registers 0x00-0x06 hold the BCD encoding of
2024-03-15 (Friday), 13:45:30; used against `now`. -/
def rtcC5 : uRTCLib :=
  mkRTC (fun a =>
    if a = 0 then 0x30 else if a = 1 then 0x45 else if a = 2 then 0x13
    else if a = 3 then 0x05 else if a = 4 then 0x15 else if a = 5 then 0x03
    else if a = 6 then 0x24 else 0)

/-- The calendar value 2024-03-15T13:45:30 built through the field
constructor, as in the specification scenario. -/
def dtScenario : DateTime := DateTime.fromFields 2024 3 15 13 45 30

/- Model of the loop header of `char* DateTime::toString(char*)`.
The source iterates `for (int i = 0; i < strlen(buffer) - 1; i++)` and
its body begins by reading `buffer[i]`.  `strlen` yields `size_t`
(16-bit unsigned on the library's AVR targets), so `strlen(buffer) - 1`
is computed modulo 2^16. -/

/-- The loop guard of `DateTime::toString` for a pattern of
null-terminated length `len` at iteration `i`: `i < strlen(buffer) - 1`
in `size_t` arithmetic. -/
def toStringGuard (len i : Nat) : Bool :=
  decide (i % 65536 < (len + 65535) % 65536)

/-- First `fuel` loop iterations of `DateTime::toString`: the list of
indices `i` whose iteration runs (each iteration reads `buffer[i]`
unconditionally as the scrutinee of its first `if`). -/
def toStringIters (len : Nat) : Nat → Nat → List Nat
  | 0, _ => []
  | fuel + 1, i =>
      if toStringGuard len i then i :: toStringIters len fuel (i + 1) else []

end URTC

namespace URTC

/- Loop-invariant development for the two scanning loops of the
`DateTime(uint32_t)` constructor. -/

theorem yLen_ge (y : Nat) : 365 ≤ yLen y := by
  unfold yLen; split <;> omega

theorem yLen_le (y : Nat) : yLen y ≤ 366 := by
  unfold yLen; split <;> omega

theorem yearLoop_step (fuel days y : Nat) :
    yearLoop (fuel + 1) days y =
      if days < yLen y then (y, days, y % 4 == 0)
      else yearLoop fuel (days - yLen y) (y + 1) := rfl

theorem monthLoopAux_step (L : Bool) (k days m : Nat) :
    monthLoopAux L (k + 1) days m =
      if days < mLen L m then (m, days)
      else monthLoopAux L k (days - mLen L m) (m + 1) := rfl

theorem sumY_succ_right : ∀ k y, sumY y (k + 1) = sumY y k + yLen (y + k) := by
  intro k
  induction k with
  | zero => intro y; simp [sumY]
  | succ n ih =>
      intro y
      show yLen y + sumY (y + 1) (n + 1) = sumY y (n + 1) + yLen (y + (n + 1))
      rw [ih (y + 1)]
      show yLen y + (sumY (y + 1) n + yLen (y + 1 + n)) =
        yLen y + sumY (y + 1) n + yLen (y + (n + 1))
      have h : y + 1 + n = y + (n + 1) := by omega
      rw [h]; omega

theorem sumY_cum : ∀ k, sumY 0 k = 365 * k + (k + 3) / 4 := by
  intro k
  induction k with
  | zero => simp [sumY]
  | succ n ih =>
      rw [sumY_succ_right, ih]
      unfold yLen
      by_cases h : n % 4 = 0 <;> simp [h, Nat.zero_add] <;> omega

theorem yearLoop_spec : ∀ fuel y days, days < 365 * fuel →
    ∃ k r, yearLoop fuel days y = (y + k, r, ((y + k) % 4 == 0)) ∧
      days = sumY y k + r ∧ r < yLen (y + k) := by
  intro fuel
  induction fuel with
  | zero => intro y days h; omega
  | succ f ih =>
      intro y days h
      rw [yearLoop_step]
      by_cases hlt : days < yLen y
      · refine ⟨0, days, ?_, by simp [sumY], by simpa using hlt⟩
        simp [hlt]
      · have h365 := yLen_ge y
        have hf : days - yLen y < 365 * f := by omega
        obtain ⟨k, r, h1, h2, h3⟩ := ih (y + 1) (days - yLen y) hf
        have he : y + 1 + k = y + (k + 1) := by omega
        refine ⟨k + 1, r, ?_, ?_, ?_⟩
        · rw [if_neg hlt, h1, he]
        · show days = sumY y (k + 1) + r
          rw [show sumY y (k + 1) = yLen y + sumY (y + 1) k from rfl]
          omega
        · rw [← he]; exact h3

theorem monthLoop_spec (L : Bool) : ∀ cnt m days,
    ∃ j r, monthLoopAux L cnt days m = (m + j, r) ∧ j ≤ cnt ∧
      days = sumM L m j + r ∧ (r < mLen L (m + j) ∨ j = cnt) := by
  intro cnt
  induction cnt with
  | zero =>
      intro m days
      exact ⟨0, days, rfl, Nat.le_refl 0, by simp [sumM], Or.inr rfl⟩
  | succ c ih =>
      intro m days
      rw [monthLoopAux_step]
      by_cases hlt : days < mLen L m
      · refine ⟨0, days, by simp [hlt], Nat.zero_le _, by simp [sumM], ?_⟩
        exact Or.inl (by simpa using hlt)
      · obtain ⟨j, r, h1, h2, h3, h4⟩ := ih (m + 1) (days - mLen L m)
        have he : m + 1 + j = m + (j + 1) := by omega
        refine ⟨j + 1, r, ?_, by omega, ?_, ?_⟩
        · rw [if_neg hlt, h1, he]
        · show days = sumM L m (j + 1) + r
          rw [show sumM L m (j + 1) = mLen L m + sumM L (m + 1) j from rfl]
          omega
        · rcases h4 with h | h
          · left; rwa [he] at h
          · right; omega

theorem sumM_succ_right (L : Bool) :
    ∀ j m, sumM L m (j + 1) = sumM L m j + mLen L (m + j) := by
  intro j
  induction j with
  | zero => intro m; simp [sumM]
  | succ n ih =>
      intro m
      show mLen L m + sumM L (m + 1) (n + 1) = sumM L m (n + 1) + mLen L (m + (n + 1))
      rw [ih (m + 1)]
      show mLen L m + (sumM L (m + 1) n + mLen L (m + 1 + n)) =
        mLen L m + sumM L (m + 1) n + mLen L (m + (n + 1))
      have h : m + 1 + n = m + (n + 1) := by omega
      rw [h]; omega

theorem sumM_mono (L : Bool) (m : Nat) : ∀ a b, a ≤ b →
    sumM L m a ≤ sumM L m b := by
  intro a b
  induction b with
  | zero => intro h; simp at h; simp [h]
  | succ n ih =>
      intro h
      rcases Nat.lt_or_ge a (n + 1) with h1 | h1
      · calc sumM L m a ≤ sumM L m n := ih (by omega)
          _ ≤ sumM L m (n + 1) := by rw [sumM_succ_right]; omega
      · have : a = n + 1 := by omega
        simp [this]

theorem sumM_eq_monthSum : ∀ (L : Bool), ∀ j, j ≤ 11 →
    sumM L 1 j = monthSum (j + 1) + (if 2 ≤ j ∧ L = true then 1 else 0) := by
  decide

theorem mLenD_le31 : ∀ (L : Bool), ∀ m, m ≤ 12 → mLenD L m ≤ 31 := by decide

theorem sumM_1_11 : ∀ (L : Bool), sumM L 1 11 = 334 + (if L then 1 else 0) := by
  decide

theorem monthSum_le : ∀ m, m ≤ 13 → monthSum m ≤ 334 := by decide

theorem validDay_lt_yLen : ∀ (L : Bool), ∀ m, m ≤ 12 → 1 ≤ m → ∀ d, d ≤ 31 →
    1 ≤ d → d ≤ mLenD L m →
    monthSum m + (if 2 < m ∧ L = true then 1 else 0) + d - 1 <
      365 + (if L then 1 else 0) := by
  decide

theorem monthLen_eq_mLenD (y m : Nat) : monthLen y m = mLenD (y % 4 == 0) m := by
  unfold monthLen mLenD mLen
  by_cases h12 : m = 12
  · simp [h12]
  · by_cases h2 : m = 2
    · by_cases h4 : y % 4 = 0 <;> simp [h12, h2, h4]
    · simp [h12, h2]

end URTC

namespace URTC

theorem yLen_cases (z : Nat) :
    (z % 4 = 0 ∧ yLen z = 366) ∨ (z % 4 ≠ 0 ∧ yLen z = 365) := by
  unfold yLen; by_cases h : z % 4 = 0 <;> simp [h]

theorem date2days_eq (y m d : Nat) (hy : y < 2000) :
    date2days y m d =
      (d + monthSum m + (if 2 < m ∧ y % 4 = 0 then 1 else 0) + 365 * y +
        (y + 3) / 4 - 1) % 65536 := by
  simp only [date2days]
  rw [if_neg (show ¬ 2000 ≤ y by omega)]

end URTC

namespace URTC

theorem cum_unique (k y r s : Nat)
    (h1 : 365 * k + (k + 3) / 4 + r = 365 * y + (y + 3) / 4 + s)
    (hr : r < yLen k) (hs : s < yLen y) : k = y ∧ r = s := by
  have hkc := yLen_cases k
  have hyc := yLen_cases y
  rcases hkc with ⟨hk4, hkL⟩ | ⟨hk4, hkL⟩
  · obtain ⟨t, rfl⟩ : ∃ t, k = 4 * t := ⟨k / 4, by omega⟩
    rcases hyc with ⟨hy4, hyL⟩ | ⟨hy4, hyL⟩
    · obtain ⟨u, rfl⟩ : ∃ u, y = 4 * u := ⟨y / 4, by omega⟩
      omega
    · rcases (show y % 4 = 1 ∨ y % 4 = 2 ∨ y % 4 = 3 by omega) with h | h | h <;>
        omega
  · rcases hyc with ⟨hy4, hyL⟩ | ⟨hy4, hyL⟩
    · obtain ⟨u, rfl⟩ : ∃ u, y = 4 * u := ⟨y / 4, by omega⟩
      rcases (show k % 4 = 1 ∨ k % 4 = 2 ∨ k % 4 = 3 by omega) with h | h | h <;>
        omega
    · rcases (show k % 4 = 1 ∨ k % 4 = 2 ∨ k % 4 = 3 by omega) with h | h | h <;>
        rcases (show y % 4 = 1 ∨ y % 4 = 2 ∨ y % 4 = 3 by omega) with h2 | h2 | h2 <;>
        omega

theorem date2days_days2date (y m d : Nat) (hy : y ≤ 99) (hm1 : 1 ≤ m)
    (hm2 : m ≤ 12) (hd1 : 1 ≤ d) (hd2 : d ≤ monthLen y m) :
    days2date (date2days y m d) = (y, m, d) := by
  have hmLenD : d ≤ mLenD (y % 4 == 0) m := by
    rw [← monthLen_eq_mLenD]; exact hd2
  have hd31 : d ≤ 31 := le_trans hmLenD (mLenD_le31 _ m hm2)
  have hms334 := monthSum_le m (by omega)
  set A : Nat := if 2 < m ∧ y % 4 = 0 then 1 else 0 with hA
  have hA1 : A ≤ 1 := by rw [hA]; split <;> omega
  set s : Nat := monthSum m + A + d - 1 with hs
  have hsum_lt : s < yLen y := by
    have hv := validDay_lt_yLen (y % 4 == 0) m hm2 hm1 d hd31 hd1 hmLenD
    have hiff : (2 < m ∧ (y % 4 == 0) = true) ↔ (2 < m ∧ y % 4 = 0) := by simp
    rw [if_congr hiff rfl rfl] at hv
    rw [← hA] at hv
    rw [hs]
    unfold yLen
    exact hv
  have hsm : sumM (y % 4 == 0) 1 (m - 1) = monthSum m + A := by
    have h := sumM_eq_monthSum (y % 4 == 0) (m - 1) (by omega)
    have h1 : m - 1 + 1 = m := by omega
    rw [h1] at h
    have hiff : (2 ≤ m - 1 ∧ (y % 4 == 0) = true) ↔ (2 < m ∧ y % 4 = 0) := by
      constructor
      · rintro ⟨ha, hb⟩; simp at hb; exact ⟨by omega, hb⟩
      · rintro ⟨ha, hb⟩; refine ⟨by omega, by simp [hb]⟩
    rw [h, hA, if_congr hiff rfl rfl]
  have hn_eq : date2days y m d = 365 * y + (y + 3) / 4 + s := by
    rw [date2days_eq y m d (by omega), ← hA]
    rw [Nat.mod_eq_of_lt (by omega)]
    omega
  have hyle := yLen_le y
  have hyge := yLen_ge y
  obtain ⟨k, r, hloop, hdec, hr⟩ :=
    yearLoop_spec 200 0 (date2days y m d) (by rw [hn_eq]; omega)
  simp only [Nat.zero_add] at hloop hdec hr
  rw [sumY_cum k, hn_eq] at hdec
  have hky : k = y ∧ r = s := cum_unique k y r s (by omega) hr hsum_lt
  obtain ⟨hk, hrs⟩ := hky
  subst hk
  subst hrs
  obtain ⟨j, r2, hml1, hj, hml2, hml3⟩ := monthLoop_spec (k % 4 == 0) 11 1 s
  have hr2 : r2 < mLenD (k % 4 == 0) (1 + j) := by
    rcases hml3 with h | h
    · by_cases h12 : 1 + j = 12
      · rw [h12] at h
        have h0 : mLen (k % 4 == 0) 12 = 0 := by
          cases hb : (k % 4 == 0) <;> simp [hb, mLen, daysInMonth]
        omega
      · unfold mLenD; rw [if_neg h12]; exact h
    · subst h
      unfold mLenD
      rw [if_pos (by omega)]
      have h335 : sumM true 1 11 = 335 := by decide
      have h334 : sumM false 1 11 = 334 := by decide
      rcases yLen_cases k with ⟨hk4, hkL⟩ | ⟨hk4, hkL⟩
      · have hb : (k % 4 == 0) = true := by simp [hk4]
        rw [hb] at hml2
        omega
      · have hb : (k % 4 == 0) = false := by simp [hk4]
        rw [hb] at hml2
        omega
  have hdm : d - 1 < mLenD (k % 4 == 0) m := by omega
  have hs2 : s = sumM (k % 4 == 0) 1 (m - 1) + (d - 1) := by rw [hsm]; omega
  have hjm : j = m - 1 ∧ r2 = d - 1 := by
    rcases Nat.lt_trichotomy j (m - 1) with hlt | heq | hgt
    · exfalso
      have h1 := sumM_mono (k % 4 == 0) 1 (j + 1) (m - 1) (by omega)
      have h2 := sumM_succ_right (k % 4 == 0) j 1
      have h3 : mLen (k % 4 == 0) (1 + j) = mLenD (k % 4 == 0) (1 + j) := by
        unfold mLenD; rw [if_neg (by omega)]
      omega
    · refine ⟨heq, ?_⟩
      subst heq
      omega
    · exfalso
      have h1 := sumM_mono (k % 4 == 0) 1 (m - 1 + 1) j (by omega)
      have h2 := sumM_succ_right (k % 4 == 0) (m - 1) 1
      have h3 : 1 + (m - 1) = m := by omega
      rw [h3] at h2
      have h4 : mLen (k % 4 == 0) m = mLenD (k % 4 == 0) m := by
        unfold mLenD; rw [if_neg (by omega)]
      omega
  obtain ⟨hj1, hj2⟩ := hjm
  simp only [days2date]
  rw [hloop]
  simp only
  rw [hml1]
  simp only
  rw [show 1 + j = m by omega, show r2 + 1 = d by omega]

end URTC

namespace URTC

theorem days2date_spec (n : Nat) (hn : n ≤ 36524) :
    (days2date n).1 ≤ 99 ∧ 1 ≤ (days2date n).2.1 ∧ (days2date n).2.1 ≤ 12 ∧
      1 ≤ (days2date n).2.2 ∧ (days2date n).2.2 ≤ 31 ∧
      date2days (days2date n).1 (days2date n).2.1 (days2date n).2.2 = n := by
  obtain ⟨k, r, hloop, hdec, hr⟩ := yearLoop_spec 200 0 n (by omega)
  simp only [Nat.zero_add] at hloop hdec hr
  rw [sumY_cum k] at hdec
  have hk99 : k ≤ 99 := by omega
  obtain ⟨j, r2, hml1, hj, hml2, hml3⟩ := monthLoop_spec (k % 4 == 0) 11 1 r
  have h335 : sumM true 1 11 = 335 := by decide
  have h334 : sumM false 1 11 = 334 := by decide
  have hyle := yLen_le k
  have hr2 : r2 < mLenD (k % 4 == 0) (1 + j) := by
    rcases hml3 with h | h
    · by_cases h12 : 1 + j = 12
      · rw [h12] at h
        have h0 : mLen (k % 4 == 0) 12 = 0 := by
          cases hb : (k % 4 == 0) <;> simp [hb, mLen, daysInMonth]
        omega
      · unfold mLenD; rw [if_neg h12]; exact h
    · subst h
      unfold mLenD
      rw [if_pos (by omega)]
      rcases yLen_cases k with ⟨hk4, hkL⟩ | ⟨hk4, hkL⟩
      · have hb : (k % 4 == 0) = true := by simp [hk4]
        rw [hb] at hml2
        omega
      · have hb : (k % 4 == 0) = false := by simp [hk4]
        rw [hb] at hml2
        omega
  have hr2_30 : r2 ≤ 30 := by
    have := mLenD_le31 (k % 4 == 0) (1 + j) (by omega)
    omega
  have hd2d : days2date n = (k, 1 + j, r2 + 1) := by
    simp only [days2date]
    rw [hloop]
    simp only
    rw [hml1]
  rw [hd2d]
  simp only
  refine ⟨hk99, by omega, by omega, by omega, by omega, ?_⟩
  rw [date2days_eq k (1 + j) (r2 + 1) (by omega)]
  have hsm := sumM_eq_monthSum (k % 4 == 0) j (by omega)
  have hiff : (2 ≤ j ∧ (k % 4 == 0) = true) ↔ (2 < 1 + j ∧ k % 4 = 0) := by
    constructor
    · rintro ⟨ha, hb⟩; simp at hb; exact ⟨by omega, hb⟩
    · rintro ⟨ha, hb⟩; exact ⟨by omega, by simp [hb]⟩
  rw [if_congr hiff rfl rfl] at hsm
  rw [show j + 1 = 1 + j from by omega] at hsm
  have hB : (if 2 < 1 + j ∧ k % 4 = 0 then 1 else 0) ≤ 1 := by split <;> omega
  rw [Nat.mod_eq_of_lt (by omega)]
  omega

theorem fromUnix_decomp (D hh mm ss : Nat) (hD : D ≤ 38000) (hh24 : hh < 24)
    (hmm : mm < 60) (hss : ss < 60) :
    DateTime.fromUnix (946684800 + (D * 86400 + hh * 3600 + mm * 60 + ss)) =
      ⟨(days2date D).1 % 256, (days2date D).2.1 % 256, ((days2date D).2.2) % 256,
        hh, mm, ss⟩ := by
  simp only [DateTime.fromUnix]
  have e1 : (946684800 + (D * 86400 + hh * 3600 + mm * 60 + ss) +
      (4294967296 - 946684800)) % 4294967296 =
      D * 86400 + hh * 3600 + mm * 60 + ss := by omega
  rw [e1]
  have e2 : (D * 86400 + hh * 3600 + mm * 60 + ss) % 60 = ss := by omega
  have e3 : (D * 86400 + hh * 3600 + mm * 60 + ss) / 60 =
      D * 1440 + hh * 60 + mm := by omega
  rw [e2, e3]
  have e4 : (D * 1440 + hh * 60 + mm) % 60 = mm := by omega
  have e5 : (D * 1440 + hh * 60 + mm) / 60 = D * 24 + hh := by omega
  rw [e4, e5]
  have e6 : (D * 24 + hh) % 24 = hh := by omega
  have e7 : (D * 24 + hh) / 24 = D := by omega
  rw [e6, e7]
  have e8 : D % 65536 = D := by omega
  rw [e8]

theorem time2long_eq (days h m s : Nat) :
    time2long days h m s = days * 86400 + h * 3600 + m * 60 + s := by
  simp only [time2long]
  ring

theorem date2days_le (y m d : Nat) (hy : y ≤ 99) (hm : m ≤ 12) (hd : d ≤ 31) :
    date2days y m d ≤ 36525 := by
  rw [date2days_eq y m d (by omega)]
  have hms := monthSum_le m (by omega)
  have hB : (if 2 < m ∧ y % 4 = 0 then 1 else 0) ≤ 1 := by split <;> omega
  have : d + monthSum m + (if 2 < m ∧ y % 4 = 0 then 1 else 0) + 365 * y +
      (y + 3) / 4 - 1 ≤ 36525 := by omega
  omega

/-- Claim-level round-trip at the level of whole calendar values. -/
theorem unixtime_fromUnix_id (v : DateTime) (hv : ValidDT v) :
    DateTime.fromUnix v.unixtime = v := by
  obtain ⟨y, m, d, hh, mm, ss⟩ := v
  obtain ⟨h1, h2, h3, h4, h5, h6, h7, h8, h9⟩ := hv
  simp only at h1 h2 h3 h4 h5 h6 h7 h8 h9
  have hd31 : d ≤ 31 := by
    have := mLenD_le31 (y % 4 == 0) m h4
    rw [monthLen_eq_mLenD] at h6
    omega
  have hD := date2days_le y m d (by omega) (by omega) (by omega)
  have hu : DateTime.unixtime ⟨y, m, d, hh, mm, ss⟩ =
      946684800 + (date2days y m d * 86400 + hh * 3600 + mm * 60 + ss) := by
    simp only [DateTime.unixtime, time2long_eq]
    rw [Nat.mod_eq_of_lt (by omega)]
    omega
  rw [hu, fromUnix_decomp _ _ _ _ (by omega) (by omega) (by omega) (by omega)]
  rw [date2days_days2date y m d (by omega) h3 h4 h5 h6]
  simp only
  rw [Nat.mod_eq_of_lt (by omega), Nat.mod_eq_of_lt (by omega),
    Nat.mod_eq_of_lt (by omega)]

/-- Encoding after decoding is the identity on in-range unix seconds. -/
theorem fromUnix_unixtime (u : Nat) (hlo : 946684800 ≤ u)
    (hhi : u ≤ 4102444799) : (DateTime.fromUnix u).unixtime = u := by
  set D := (u - 946684800) / 86400 with hDdef
  have hrep : u = 946684800 + (D * 86400 +
      (u - 946684800) % 86400 / 3600 * 3600 +
      (u - 946684800) % 86400 % 3600 / 60 * 60 +
      (u - 946684800) % 86400 % 3600 % 60) := by omega
  have hDle : D ≤ 36524 := by omega
  obtain ⟨hy, hm1, hm2, hd1, hd2, henc⟩ := days2date_spec D hDle
  have hy' : (days2date D).1 % 256 = (days2date D).1 := Nat.mod_eq_of_lt (by omega)
  have hm' : (days2date D).2.1 % 256 = (days2date D).2.1 :=
    Nat.mod_eq_of_lt (by omega)
  have hd' : (days2date D).2.2 % 256 = (days2date D).2.2 :=
    Nat.mod_eq_of_lt (by omega)
  rw [hrep, fromUnix_decomp _ _ _ _ (by omega) (by omega) (by omega) (by omega)]
  simp only [DateTime.unixtime, time2long_eq]
  rw [hy', hm', hd', henc]
  rw [Nat.mod_eq_of_lt (by omega)]
  omega

end URTC

namespace URTC

theorem unixtime_lt (v : DateTime) : v.unixtime < 4294967296 :=
  Nat.mod_lt _ (by norm_num)

/-- C1: For every valid Calendar Value V whose date lies in
[2001-01-01, 2099-12-31] (month 1-12, day valid for that month with leap
years exactly those with yearOffset % 4 == 0, hour 0-23, minute 0-59,
second 0-59), constructing a DateTime from V.unixtime() via the
DateTime(uint32_t) constructor reproduces V field-for-field. -/
theorem claim_C1 (v : DateTime) (hv : ValidDT v) :
    DateTime.fromUnix v.unixtime = v :=
  unixtime_fromUnix_id v hv

/-- Witness for C1 at the calendar value 2024-03-15T13:45:30. -/
theorem claim_C1_witness :
    ValidDT dtScenario ∧ DateTime.fromUnix dtScenario.unixtime = dtScenario :=
  ⟨by decide, claim_C1 dtScenario (by decide)⟩

/-- C2 counterexample: arming alarm 1 via alarmSet and then selecting the
non-off wave mode URTCLIB_SQWG_1H leaves alarm 1's mirror armed, so
alarmMode(URTCLIB_ALARM_1) returns the armed type, not
URTCLIB_ALARM_TYPE_1_NONE as the claim asserts. -/
theorem claim_C2_counterexample :
    (uRTCLib.sqwgSetMode
      (uRTCLib.alarmSet rtcZero URTCLIB_ALARM_TYPE_1_FIXED_HMS 0 30 7 1).2
      URTCLIB_SQWG_1H).1 = true ∧
    uRTCLib.alarmMode
      (uRTCLib.sqwgSetMode
        (uRTCLib.alarmSet rtcZero URTCLIB_ALARM_TYPE_1_FIXED_HMS 0 30 7 1).2
        URTCLIB_SQWG_1H).2 URTCLIB_ALARM_1 = URTCLIB_ALARM_TYPE_1_FIXED_HMS ∧
    URTCLIB_ALARM_TYPE_1_FIXED_HMS ≠ URTCLIB_ALARM_TYPE_1_NONE := by
  refine ⟨rfl, rfl, by decide⟩

/-- C2 amended: calling sqwgSetMode with any non-off wave mode (1Hz,
1024Hz, 4096Hz or 8192Hz) returns true and leaves both alarm mirrors
unchanged, so alarmMode reports the same mode as before the call; only
the off mode URTCLIB_SQWG_OFF_1 resets the alarm mirrors. -/
theorem claim_C2 (r : uRTCLib) (mode : Nat)
    (hmode : mode = URTCLIB_SQWG_1H ∨ mode = URTCLIB_SQWG_1024H ∨
      mode = URTCLIB_SQWG_4096H ∨ mode = URTCLIB_SQWG_8192H) :
    (uRTCLib.sqwgSetMode r mode).1 = true ∧
    (uRTCLib.sqwgSetMode r mode).2.a1_mode = r.a1_mode ∧
    (uRTCLib.sqwgSetMode r mode).2.a2_mode = r.a2_mode ∧
    uRTCLib.alarmMode (uRTCLib.sqwgSetMode r mode).2 URTCLIB_ALARM_1 =
      uRTCLib.alarmMode r URTCLIB_ALARM_1 ∧
    uRTCLib.alarmMode (uRTCLib.sqwgSetMode r mode).2 URTCLIB_ALARM_2 =
      uRTCLib.alarmMode r URTCLIB_ALARM_2 := by
  rcases hmode with h | h | h | h <;> subst h <;>
    simp [uRTCLib.sqwgSetMode, uRTCLib.alarmMode, busReadReg, busWriteReg,
      URTCLIB_SQWG_1H, URTCLIB_SQWG_OFF_1, URTCLIB_SQWG_OFF_0,
      URTCLIB_SQWG_1024H, URTCLIB_SQWG_4096H, URTCLIB_SQWG_8192H,
      URTCLIB_ALARM_1, URTCLIB_ALARM_2, URTCLIB_ALARM_TYPE_1_NONE,
      URTCLIB_ALARM_TYPE_2_NONE]

/-- Witness for the amended C2 at mode URTCLIB_SQWG_1H on a fresh device. -/
theorem claim_C2_witness :
    (URTCLIB_SQWG_1H = URTCLIB_SQWG_1H ∨ URTCLIB_SQWG_1H = URTCLIB_SQWG_1024H ∨
      URTCLIB_SQWG_1H = URTCLIB_SQWG_4096H ∨
      URTCLIB_SQWG_1H = URTCLIB_SQWG_8192H) ∧
    ((uRTCLib.sqwgSetMode rtcZero URTCLIB_SQWG_1H).1 = true ∧
    (uRTCLib.sqwgSetMode rtcZero URTCLIB_SQWG_1H).2.a1_mode = rtcZero.a1_mode ∧
    (uRTCLib.sqwgSetMode rtcZero URTCLIB_SQWG_1H).2.a2_mode = rtcZero.a2_mode ∧
    uRTCLib.alarmMode (uRTCLib.sqwgSetMode rtcZero URTCLIB_SQWG_1H).2
      URTCLIB_ALARM_1 = uRTCLib.alarmMode rtcZero URTCLIB_ALARM_1 ∧
    uRTCLib.alarmMode (uRTCLib.sqwgSetMode rtcZero URTCLIB_SQWG_1H).2
      URTCLIB_ALARM_2 = uRTCLib.alarmMode rtcZero URTCLIB_ALARM_2) :=
  ⟨Or.inl rfl, claim_C2 rtcZero URTCLIB_SQWG_1H (Or.inl rfl)⟩

/-- C3: evaluation of alarmDisable(URTCLIB_ALARM_2) on a control byte
0b00000111 with both alarms armed.  The source clears bit 0 (A1IE, the
other alarm's enable bit) instead of bit 1 (A2IE), leaving A2IE set, and
resets the alarm-1 mirror instead of alarm 2's: the control byte becomes
0b00000110 where the claim requires 0b00000101, and the alarm-1 mirror is
clobbered. -/
theorem claim_C3_eval :
    (uRTCLib.alarmDisable rtcC3 URTCLIB_ALARM_2).1 = true ∧
    (uRTCLib.alarmDisable rtcC3 URTCLIB_ALARM_2).2.regs 0x0E = 0b00000110 ∧
    Nat.testBit ((uRTCLib.alarmDisable rtcC3 URTCLIB_ALARM_2).2.regs 0x0E) 1 =
      true ∧
    Nat.testBit ((uRTCLib.alarmDisable rtcC3 URTCLIB_ALARM_2).2.regs 0x0E) 0 =
      false ∧
    Nat.testBit (rtcC3.regs 0x0E) 0 = true ∧
    (uRTCLib.alarmDisable rtcC3 URTCLIB_ALARM_2).2.a1_mode =
      URTCLIB_ALARM_TYPE_1_NONE ∧
    rtcC3.a1_mode = URTCLIB_ALARM_TYPE_1_FIXED_HMS ∧
    URTCLIB_ALARM_TYPE_1_FIXED_HMS ≠ URTCLIB_ALARM_TYPE_1_NONE := by
  decide

/-- C4 counterexample: the Calendar Value built from
(2024, 3, 15, 13, 45, 30) has unixtime() equal to 1710510330, not the
1710503130 stated by the claim. -/
theorem claim_C4_counterexample :
    dtScenario.unixtime = 1710510330 ∧ dtScenario.unixtime ≠ 1710503130 := by
  refine ⟨by decide, by decide⟩

/-- C4 amended: the Calendar Value built from fields (2024, 3, 15, 13, 45,
30) satisfies unixtime() == 1710510330,
timestamp(TIMESTAMP_FULL) == "2024-03-15T13:45:30", and
dayOfTheWeek() == 5 (Friday). -/
theorem claim_C4 :
    dtScenario.unixtime = 1710510330 ∧
    dtScenario.timestampFull = "2024-03-15T13:45:30" ∧
    dtScenario.dayOfTheWeek = 5 := by
  refine ⟨by decide, by decide, by decide⟩

/-- C5 counterexample: with the seconds register holding BCD 0x30, now()
decodes second 30, yet the second() accessor afterwards still returns the
stale mirror value 0: the read values are not stored into the mirror. -/
theorem claim_C5_counterexample :
    bcd2bin (rtcC5.regs 0 &&& 0x7F) = 30 ∧
    (uRTCLib.now rtcC5).1.ss = 30 ∧
    uRTCLib.second (uRTCLib.now rtcC5).2 = 0 ∧
    (30 : Nat) ≠ 0 := by
  decide

/-- C5 amended: now() issues the 7-byte read and returns a DateTime built
from the BCD-decoded bytes (bit 7 of the seconds byte masked off, the
weekday byte ignored, year offset + 2000), but does not store anything
into the device mirror: the accessors second() .. year() return the same
mirror values as before the call. -/
theorem claim_C5 (r : uRTCLib) :
    (uRTCLib.now r).1 = DateTime.fromFields (bcd2bin (r.regs 6) + 2000)
        (bcd2bin (r.regs 5)) (bcd2bin (r.regs 4)) (bcd2bin (r.regs 2))
        (bcd2bin (r.regs 1)) (bcd2bin (r.regs 0 &&& 0x7F)) ∧
    uRTCLib.second (uRTCLib.now r).2 = uRTCLib.second r ∧
    uRTCLib.minute (uRTCLib.now r).2 = uRTCLib.minute r ∧
    uRTCLib.hour (uRTCLib.now r).2 = uRTCLib.hour r ∧
    uRTCLib.day (uRTCLib.now r).2 = uRTCLib.day r ∧
    uRTCLib.month (uRTCLib.now r).2 = uRTCLib.month r ∧
    uRTCLib.year (uRTCLib.now r).2 = uRTCLib.year r := by
  simp [uRTCLib.now, busReadReg, uRTCLib.second, uRTCLib.minute, uRTCLib.hour,
    uRTCLib.day, uRTCLib.month, uRTCLib.year]

/-- C6: for every valid Calendar Value V and int32 Duration s such that
V + s lies in the valid range, the duration (V + s) - V has total-seconds
equal to s. -/
theorem claim_C6 (v : DateTime) (s : Int) (_hv : ValidDT v)
    (hs1 : -2147483648 ≤ s) (hs2 : s < 2147483648)
    (hlo : 978307200 ≤ (v.unixtime : Int) + s)
    (hhi : (v.unixtime : Int) + s ≤ 4102444799) :
    DateTime.subDT (DateTime.addSpan v s) v = s := by
  have hub := unixtime_lt v
  simp only [DateTime.addSpan, DateTime.subDT]
  set u2 : Nat := ((((v.unixtime : Int) + s) % 4294967296).toNat) with hu2def
  have hnn : (0:Int) ≤ (v.unixtime : Int) + s := by omega
  have hlt : (v.unixtime : Int) + s < 4294967296 := by omega
  have hu2 : (u2 : Int) = (v.unixtime : Int) + s := by
    rw [hu2def, Int.emod_eq_of_lt hnn hlt]
    exact Int.toNat_of_nonneg hnn
  have hL2 : (DateTime.fromUnix u2).unixtime = u2 :=
    fromUnix_unixtime u2 (by omega) (by omega)
  rw [hL2]
  simp only [toInt32]
  split
  · omega
  · omega

/-- Witness for C6 at V = 2024-03-15T13:45:30 and a one-day duration. -/
theorem claim_C6_witness :
    (ValidDT dtScenario ∧ -2147483648 ≤ (86400 : Int) ∧
      (86400 : Int) < 2147483648 ∧
      978307200 ≤ (dtScenario.unixtime : Int) + 86400 ∧
      (dtScenario.unixtime : Int) + 86400 ≤ 4102444799) ∧
    DateTime.subDT (DateTime.addSpan dtScenario 86400) dtScenario = 86400 :=
  ⟨⟨by decide, by decide, by decide, by decide, by decide⟩,
    claim_C6 dtScenario 86400 (by decide) (by decide) (by decide) (by decide)
      (by decide)⟩

/-- C7: decoding the BCD encoding of any b in 0..99 returns b. -/
theorem claim_C7 : ∀ b : Nat, b ≤ 99 → bcd2bin (bin2bcd b) = b := by decide

/-- Witness for C7 at b = 42. -/
theorem claim_C7_witness : (42 : Nat) ≤ 99 ∧ bcd2bin (bin2bcd 42) = 42 :=
  ⟨by decide, claim_C7 42 (by decide)⟩

/-- C8: for every mode byte outside the five supported square-wave enum
values, sqwgSetMode performs no bus transaction (the trace and register
file are untouched), leaves the whole mirror unchanged, and returns
false. -/
theorem claim_C8 (r : uRTCLib) (mode : Nat)
    (h1 : mode ≠ URTCLIB_SQWG_OFF_1) (h2 : mode ≠ URTCLIB_SQWG_1H)
    (h3 : mode ≠ URTCLIB_SQWG_1024H) (h4 : mode ≠ URTCLIB_SQWG_4096H)
    (h5 : mode ≠ URTCLIB_SQWG_8192H) :
    uRTCLib.sqwgSetMode r mode = (false, r) := by
  simp only [URTCLIB_SQWG_OFF_1, URTCLIB_SQWG_1H, URTCLIB_SQWG_1024H,
    URTCLIB_SQWG_4096H, URTCLIB_SQWG_8192H] at h1 h2 h3 h4 h5
  simp [uRTCLib.sqwgSetMode, URTCLIB_SQWG_OFF_1, URTCLIB_SQWG_1H,
    URTCLIB_SQWG_1024H, URTCLIB_SQWG_4096H, URTCLIB_SQWG_8192H,
    h1, h2, h3, h4, h5]

/-- Witness for C8 at the unsupported mode URTCLIB_SQWG_32768H. -/
theorem claim_C8_witness :
    (URTCLIB_SQWG_32768H ≠ URTCLIB_SQWG_OFF_1 ∧
      URTCLIB_SQWG_32768H ≠ URTCLIB_SQWG_1H ∧
      URTCLIB_SQWG_32768H ≠ URTCLIB_SQWG_1024H ∧
      URTCLIB_SQWG_32768H ≠ URTCLIB_SQWG_4096H ∧
      URTCLIB_SQWG_32768H ≠ URTCLIB_SQWG_8192H) ∧
    uRTCLib.sqwgSetMode rtcZero URTCLIB_SQWG_32768H = (false, rtcZero) :=
  ⟨⟨by decide, by decide, by decide, by decide, by decide⟩,
    claim_C8 rtcZero URTCLIB_SQWG_32768H (by decide) (by decide) (by decide)
      (by decide) (by decide)⟩

/-- C9: evaluation of the memory-region operations.  Because the source
hard-codes offset = 0xff and guards the bus access with offset != 0xff,
every ramRead returns 0xFF and every ramWrite returns false, for every
address (in or out of any documented window), without any bus
transaction. -/
theorem claim_C9_eval (r : uRTCLib) (address data : Nat) :
    uRTCLib.ramRead r address = (0xff, r) ∧
    uRTCLib.ramWrite r address data = (false, r) := by
  constructor <;> rfl

/-- C10: evaluation of the toString loop model at the empty pattern.  With
len = 0 the guard i < strlen(buffer) - 1 is computed in size_t arithmetic
as i < 65535, so iteration i = 1 runs (the body reads buffer[1]) even
though the terminator sits at index 0: the loop reads past the
null-terminated length instead of terminating immediately. -/
theorem claim_C10_eval :
    toStringGuard 0 1 = true ∧
    toStringIters 0 3 0 = [0, 1, 2] ∧
    (1 : Nat) > 0 := by
  decide

end URTC
